import Mathlib

/-!
# Shallow embedding of the Groq chatbot API (`src/main.py`)

The MongoDB collection `conversations_collection` is modeled as a list of
records in natural (insertion) order:

* `find_one({"conversation_id": id})` returns the first record whose
  `conversation_id` field matches, or nothing;
* `insert_one(doc)` appends the document at the end;
* `update_one(filter, {"$set": ...})` rewrites the first matching record and
  leaves the store unchanged when no record matches (the call uses no upsert).

`datetime.utcnow()` is modeled by an explicitly supplied clock value
`now : Nat`.  The Groq streaming completion call is modeled by an oracle
`upstream : List Message → Except String (List (Option String))` mapping the
message history sent to the service either to the list of stream chunks (each
chunk's `delta.content`, `none` when the delta carries no content) or to a
raised exception rendered as its message string.
-/

/-- One role-tagged utterance, the Python dict `{"role": ..., "content": ...}`. -/
structure Message where
  role : String
  content : String
  deriving DecidableEq, Repr

/-- A persisted conversation document, exactly the fields written by
`insert_one` in `get_or_create_conversation`. -/
structure Record where
  conversation_id : String
  messages : List Message
  active : Bool
  created_at : Nat
  updated_at : Nat
  deriving DecidableEq, Repr

/-- The `conversations` collection, in natural order. -/
abbrev Store := List Record

/-- `conversations_collection.find_one({"conversation_id": cid})`: first record
whose key matches. -/
def findOne : Store → String → Option Record
  | [], _ => none
  | r :: rs, cid => if r.conversation_id == cid then some r else findOne rs cid

/-- `update_one` with a `$set` payload: rewrite the first matching record,
no-op when nothing matches (no upsert in the source). -/
def updateOne (f : Record → Record) : Store → String → Store
  | [], _ => []
  | r :: rs, cid =>
    if r.conversation_id == cid then f r :: rs else r :: updateOne f rs cid

/-- The initial system message installed by `Conversation.__init__`. -/
def systemMessage : Message :=
  { role := "system", content := "You are a useful AI assistant." }

/-- The in-memory `Conversation` object of `main.py`. -/
structure Conversation where
  conversation_id : String
  messages : List Message
  active : Bool
  created_at : Nat
  updated_at : Nat
  deriving DecidableEq, Repr

/-- `Conversation.__init__`: fresh object with the single system message,
`active = True` and both timestamps set to the current time. -/
def Conversation.init (conversation_id : String) (now : Nat) : Conversation :=
  { conversation_id := conversation_id
    messages := [systemMessage]
    active := true
    created_at := now
    updated_at := now }

/-- `get_or_create_conversation`: load the record from the store if present
(copying back `messages`, `active` and `created_at`, but *not* `updated_at`,
which keeps the freshly computed value from `Conversation.__init__`);
otherwise create a fresh conversation and insert its document.  Returns the
conversation together with the store after the call. -/
def get_or_create_conversation (conversation_id : String) (store : Store)
    (now : Nat) : Conversation × Store :=
  match findOne store conversation_id with
  | some conversation_data =>
      let conversation := Conversation.init conversation_id now
      ({ conversation with
          messages := conversation_data.messages
          active := conversation_data.active
          created_at := conversation_data.created_at }, store)
  | none =>
      let conversation := Conversation.init conversation_id now
      (conversation,
        store ++ [{ conversation_id := conversation.conversation_id
                    messages := conversation.messages
                    active := conversation.active
                    created_at := conversation.created_at
                    updated_at := conversation.updated_at }])

/-- `save_conversation`: `update_one` setting `messages`, `active` and a fresh
`updated_at` on the record keyed by the conversation's id. -/
def save_conversation (conversation : Conversation) (now : Nat)
    (store : Store) : Store :=
  updateOne
    (fun r => { r with
        messages := conversation.messages
        active := conversation.active
        updated_at := now })
    store conversation.conversation_id

/-- The loop body of `query_groq_api`: `if chunk.choices[0].delta.content:`
skips both an absent delta and an empty string (Python falsiness), otherwise
the fragment is appended to the accumulated response. -/
def appendChunk (response : String) (chunk : Option String) : String :=
  match chunk with
  | none => response
  | some content => if content == "" then response else response ++ content

/-- Draining the completion stream: fold `appendChunk` over the chunks in
arrival order, starting from `response = ""`. -/
def aggregateChunks (chunks : List (Option String)) : String :=
  chunks.foldl appendChunk ""

/-- The model of the external completion service: the message history sent
determines either the chunk stream or a raised exception. -/
abbrev Upstream := List Message → Except String (List (Option String))

/-- `query_groq_api`: send the conversation's messages, drain the stream into
one string; any exception becomes an HTTP 500 whose detail wraps the cause. -/
def query_groq_api (upstream : Upstream) (conversation : Conversation) :
    Except String String :=
  match upstream conversation.messages with
  | Except.ok chunks => Except.ok (aggregateChunks chunks)
  | Except.error e => Except.error ("Error with Groq API: " ++ e)

/-- The request body of `POST /chat/` (`UserInput` in `main.py`). -/
structure UserInput where
  message : String
  role : String := "user"
  conversation_id : String
  get_or_create_conversation : String
  deriving DecidableEq, Repr

/-- The failure outcomes of the `chat` handler: HTTP 400 for an inactive
session, HTTP 500 (carrying the detail string) for an upstream failure. -/
inductive ChatError where
  | inactiveSession : ChatError
  | upstream : String → ChatError
  deriving DecidableEq, Repr

/-- The 200 response body of `POST /chat/`. -/
structure ChatResponse where
  response : String
  conversation_id : String
  deriving DecidableEq, Repr

/-- The `POST /chat/` handler.  Returns the outcome together with the store as
it stands when the handler finishes: a raised exception does not undo store
writes already performed, so the store is threaded through error exits too. -/
def chat (upstream : Upstream) (input : UserInput) (store : Store) (now : Nat) :
    Except ChatError ChatResponse × Store :=
  let conversation := (get_or_create_conversation input.conversation_id store now).1
  let store1 := (get_or_create_conversation input.conversation_id store now).2
  if !conversation.active then
    (Except.error ChatError.inactiveSession, store1)
  else
    let conversation1 := { conversation with
        messages := conversation.messages ++
          [{ role := input.role, content := input.message }] }
    match query_groq_api upstream conversation1 with
    | Except.error e => (Except.error (ChatError.upstream e), store1)
    | Except.ok response =>
        let conversation2 := { conversation1 with
            messages := conversation1.messages ++
              [{ role := "assistant", content := response }] }
        (Except.ok { response := response, conversation_id := input.conversation_id },
          save_conversation conversation2 now store1)

/-- The store-write failure of the spec's `ConversationStore.update` contract. -/
inductive StoreWriteError where
  | storeWriteError : StoreWriteError
  deriving DecidableEq, Repr

/-- The spec's wording of `update(id, messages, active)`, for comparison with
`save_conversation`: "overwrites messages/active and refreshes updated_at;
fails with `StoreWriteError` if the record does not exist". -/
def updateSpec (cid : String) (messages : List Message) (active : Bool)
    (now : Nat) (store : Store) : Except StoreWriteError Store :=
  match findOne store cid with
  | none => Except.error StoreWriteError.storeWriteError
  | some _ => Except.ok (updateOne
      (fun r => { r with messages := messages, active := active, updated_at := now })
      store cid)

/-! ## Concrete sample data for witnesses and counterexamples -/

/-- A stored active record for id `"c1"` (timestamps 3 and 5). -/
def recStored : Record := ⟨"c1", [systemMessage], true, 3, 5⟩

/-- A stored record for id `"c2"` seeded with `active = false`. -/
def recInactive : Record := ⟨"c2", [systemMessage], false, 3, 5⟩

/-- A user message. -/
def msgHi : Message := ⟨"user", "hi"⟩

/-- An in-memory conversation for `"c1"` carrying a user message. -/
def convHi : Conversation := ⟨"c1", [systemMessage, msgHi], true, 1, 1⟩

/-- An in-memory conversation for an id missing from the sample stores. -/
def convFresh : Conversation := ⟨"c9", [systemMessage], true, 1, 1⟩

/-- A `POST /chat/` body addressed to `"c1"`. -/
def inputHi : UserInput := ⟨"hi", "user", "c1", ""⟩

/-- A `POST /chat/` body addressed to the inactive `"c2"`. -/
def inputC2 : UserInput := ⟨"hi", "user", "c2", ""⟩

/-- A completion service that always raises. -/
def upstreamFail : Upstream := fun _ => Except.error "boom"

/-- A completion service that streams the reply `"hello"` in two chunks. -/
def upstreamOk : Upstream := fun _ => Except.ok [some "hel", some "lo"]

/-! ## Store lemmas -/

/-- Finding a key just appended to a store that did not contain it. -/
theorem findOne_append_of_none (store : Store) (rec : Record) (cid : String)
    (hnone : findOne store cid = none) (hid : rec.conversation_id = cid) :
    findOne (store ++ [rec]) cid = some rec := by
  induction store with
  | nil => simp [findOne, hid]
  | cons r rs ih =>
      cases h : (r.conversation_id == cid) with
      | true => simp [findOne, h] at hnone
      | false =>
          simp only [findOne, h] at hnone
          simp only [List.cons_append, findOne, h]
          exact ih hnone

/-- `update_one` on a store without the key is a no-op. -/
theorem updateOne_of_none (f : Record → Record) (store : Store) (cid : String)
    (hnone : findOne store cid = none) : updateOne f store cid = store := by
  induction store with
  | nil => rfl
  | cons r rs ih =>
      cases h : (r.conversation_id == cid) with
      | true => simp [findOne, h] at hnone
      | false =>
          simp only [findOne, h] at hnone
          simp only [updateOne, h, Bool.false_eq_true, if_false]
          rw [ih hnone]

/-- Reading back the key rewritten by `update_one`, for a key-preserving
rewrite. -/
theorem findOne_updateOne (f : Record → Record) (store : Store) (cid : String)
    (hf : ∀ r : Record, (f r).conversation_id = r.conversation_id) :
    findOne (updateOne f store cid) cid = (findOne store cid).map f := by
  induction store with
  | nil => rfl
  | cons r rs ih =>
      cases h : (r.conversation_id == cid) with
      | true => simp [findOne, updateOne, h, hf r]
      | false => simp [findOne, updateOne, h, ih]

/-- Reading back the conversation's own key after `save_conversation`. -/
theorem findOne_save_conversation (conversation : Conversation) (now : Nat)
    (store : Store) (cid : String)
    (hcid : conversation.conversation_id = cid) :
    findOne (save_conversation conversation now store) cid =
      (findOne store cid).map
        (fun r => { r with messages := conversation.messages,
                           active := conversation.active, updated_at := now }) := by
  subst hcid
  rw [save_conversation]
  exact findOne_updateOne _ _ _ (fun s => rfl)

/-! ## Aggregation lemmas -/

/-- A present fragment always extends the accumulator by itself: the Python
falsiness guard skips `""`, and appending `""` is the identity anyway. -/
theorem appendChunk_some (response : String) (content : String) :
    appendChunk response (some content) = response ++ content := by
  cases h : (content == "") with
  | true =>
      have hc : content = "" := by simpa using h
      simp [appendChunk, h, hc, String.append_empty]
  | false => simp [appendChunk, h]

/-! ## Claim theorems -/

/-- Claim C2, counterexample: for a stored record with `updated_at = 5`, a
`get_or_create_conversation` call at time 7 returns a conversation whose
`updated_at` is the freshly computed 7, not the stored 5 — the record is not
returned entirely as-is. -/
theorem get_or_create_existing_not_as_is :
    ¬ ((get_or_create_conversation "c1" [recStored] 7).1.updated_at =
        recStored.updated_at) := by
  decide

/-- Claim C2 (amended): for an id present in the store,
`get_or_create_conversation` returns the stored `messages`, `active` and
`created_at` unchanged and does not touch the store, but `updated_at` is the
freshly computed current time rather than the stored value. -/
theorem get_or_create_existing_fields
    (cid : String) (store : Store) (now : Nat) (r : Record)
    (hfind : findOne store cid = some r) :
    (get_or_create_conversation cid store now).1.messages = r.messages
    ∧ (get_or_create_conversation cid store now).1.active = r.active
    ∧ (get_or_create_conversation cid store now).1.created_at = r.created_at
    ∧ (get_or_create_conversation cid store now).1.updated_at = now
    ∧ (get_or_create_conversation cid store now).2 = store := by
  simp [get_or_create_conversation, hfind, Conversation.init]

/-- Witness for `get_or_create_existing_fields` at a concrete store. -/
theorem get_or_create_existing_fields_witness :
    (get_or_create_conversation "c1" [recStored] 7).1.messages =
      recStored.messages
    ∧ (get_or_create_conversation "c1" [recStored] 7).1.active =
      recStored.active
    ∧ (get_or_create_conversation "c1" [recStored] 7).1.created_at =
      recStored.created_at
    ∧ (get_or_create_conversation "c1" [recStored] 7).1.updated_at = 7
    ∧ (get_or_create_conversation "c1" [recStored] 7).2 = [recStored] :=
  get_or_create_existing_fields "c1" [recStored] 7 recStored rfl

/-- Claim C3, counterexample: `save_conversation` on a store without the
record completes without raising anything and leaves the store unchanged,
while the claimed contract (`updateSpec`, worded from the spec) demands a
`StoreWriteError` on that same input. -/
theorem save_conversation_missing_no_error :
    save_conversation convHi 7 [] = []
    ∧ updateSpec "c1" convHi.messages convHi.active 7 [] =
        Except.error StoreWriteError.storeWriteError :=
  ⟨rfl, rfl⟩

/-- Claim C3 (amended): when a record with the conversation's id exists, the
update overwrites its `messages` and `active` fields and refreshes
`updated_at`; when no such record exists, the update completes without error
and leaves the store unchanged (`update_one` without upsert matches nothing). -/
theorem save_conversation_update_contract
    (conversation : Conversation) (now : Nat) (store : Store) :
    (∀ r : Record, findOne store conversation.conversation_id = some r →
      findOne (save_conversation conversation now store)
          conversation.conversation_id =
        some { r with messages := conversation.messages,
                      active := conversation.active, updated_at := now })
    ∧ (findOne store conversation.conversation_id = none →
      save_conversation conversation now store = store) := by
  constructor
  · intro r hr
    rw [findOne_save_conversation _ _ _ _ rfl, hr]
    rfl
  · intro h
    rw [save_conversation, updateOne_of_none _ _ _ h]

/-- Witness for `save_conversation_update_contract`: both branches applied at
concrete stores. -/
theorem save_conversation_update_contract_witness :
    findOne (save_conversation convHi 7 [recStored]) "c1" =
      some ⟨"c1", [systemMessage, msgHi], true, 3, 7⟩
    ∧ save_conversation convFresh 7 [] = [] :=
  ⟨(save_conversation_update_contract convHi 7 [recStored]).1 recStored rfl,
   (save_conversation_update_contract convFresh 7 []).2 rfl⟩

/-- Claim C6: aggregation is associative under fragment splitting — draining
the chunk stream `[f1, f2, f3]` yields the same reply string as draining
`[f1 ++ f2, f3]`, so the result does not depend on how the upstream chunks
the same total output. -/
theorem aggregateChunks_fragment_split (f1 f2 f3 : String) :
    aggregateChunks [some f1, some f2, some f3] =
      aggregateChunks [some (f1 ++ f2), some f3] := by
  simp [aggregateChunks, appendChunk_some, String.append_assoc]

/-- Claim C1: when the record is present and active and the completion call
fails after the user message was appended in memory, `chat` propagates the
upstream completion error (HTTP 500) and returns the store exactly as it was:
no persistence write happens during that chat turn. -/
theorem chat_upstream_failure_leaves_store_unchanged
    (upstream : Upstream) (input : UserInput) (store : Store) (now : Nat)
    (r : Record) (e : String)
    (hfind : findOne store input.conversation_id = some r)
    (hactive : r.active = true)
    (hfail : upstream (r.messages ++ [⟨input.role, input.message⟩]) =
      Except.error e) :
    chat upstream input store now =
      (Except.error (ChatError.upstream ("Error with Groq API: " ++ e)),
        store) := by
  simp [chat, get_or_create_conversation, hfind, hactive, Conversation.init,
    query_groq_api, hfail]

/-- Witness for `chat_upstream_failure_leaves_store_unchanged`. -/
theorem chat_upstream_failure_leaves_store_unchanged_witness :
    chat upstreamFail inputHi [recStored] 9 =
      (Except.error (ChatError.upstream ("Error with Groq API: " ++ "boom")),
        [recStored]) :=
  chat_upstream_failure_leaves_store_unchanged upstreamFail inputHi [recStored]
    9 recStored "boom" rfl rfl rfl

/-- Claim C4: a chat attempt against a conversation stored with
`active = false` fails with the inactive-session error (HTTP 400) and leaves
the store exactly as it was — no persisted mutation. -/
theorem chat_inactive_session_no_mutation
    (upstream : Upstream) (input : UserInput) (store : Store) (now : Nat)
    (r : Record)
    (hfind : findOne store input.conversation_id = some r)
    (hinactive : r.active = false) :
    chat upstream input store now =
      (Except.error ChatError.inactiveSession, store) := by
  simp [chat, get_or_create_conversation, hfind, hinactive, Conversation.init]

/-- Witness for `chat_inactive_session_no_mutation`. -/
theorem chat_inactive_session_no_mutation_witness :
    chat upstreamOk inputC2 [recInactive] 9 =
      (Except.error ChatError.inactiveSession, [recInactive]) :=
  chat_inactive_session_no_mutation upstreamOk inputC2 [recInactive] 9
    recInactive rfl rfl

/-- Claim C5: on a successful exchange, `chat` returns the aggregated reply
and the persisted message list equals the pre-call list extended by exactly
the caller-supplied user message and then the assistant message, in that
order, with a refreshed `updated_at`. -/
theorem chat_success_appends_user_then_assistant
    (upstream : Upstream) (input : UserInput) (store : Store) (now : Nat)
    (r : Record) (chunks : List (Option String))
    (hfind : findOne store input.conversation_id = some r)
    (hactive : r.active = true)
    (hok : upstream (r.messages ++ [⟨input.role, input.message⟩]) =
      Except.ok chunks) :
    (chat upstream input store now).1 =
      Except.ok ⟨aggregateChunks chunks, input.conversation_id⟩
    ∧ findOne (chat upstream input store now).2 input.conversation_id =
      some { r with
        messages := r.messages ++ [⟨input.role, input.message⟩,
          ⟨"assistant", aggregateChunks chunks⟩],
        updated_at := now } := by
  have hc : chat upstream input store now =
      (Except.ok ⟨aggregateChunks chunks, input.conversation_id⟩,
        save_conversation
          ⟨input.conversation_id,
            r.messages ++ [⟨input.role, input.message⟩,
              ⟨"assistant", aggregateChunks chunks⟩],
            r.active, r.created_at, now⟩ now store) := by
    simp [chat, get_or_create_conversation, hfind, hactive, Conversation.init,
      query_groq_api, hok]
  have h1 : (chat upstream input store now).1 =
      Except.ok ⟨aggregateChunks chunks, input.conversation_id⟩ := by
    rw [hc]
  have h2 : (chat upstream input store now).2 =
      save_conversation
        ⟨input.conversation_id,
          r.messages ++ [⟨input.role, input.message⟩,
            ⟨"assistant", aggregateChunks chunks⟩],
          r.active, r.created_at, now⟩ now store := by
    rw [hc]
  refine ⟨h1, ?_⟩
  rw [h2, findOne_save_conversation _ _ _ _ rfl, hfind]
  rfl

/-- Witness for `chat_success_appends_user_then_assistant`. -/
theorem chat_success_appends_user_then_assistant_witness :
    (chat upstreamOk inputHi [recStored] 9).1 =
      Except.ok ⟨aggregateChunks [some "hel", some "lo"], "c1"⟩
    ∧ findOne (chat upstreamOk inputHi [recStored] 9).2 "c1" =
      some { recStored with
        messages := recStored.messages ++ [⟨"user", "hi"⟩,
          ⟨"assistant", aggregateChunks [some "hel", some "lo"]⟩],
        updated_at := 9 } :=
  chat_success_appends_user_then_assistant upstreamOk inputHi [recStored] 9
    recStored [some "hel", some "lo"] rfl rfl rfl

/-- Claim C7: for an id absent from the store, `get_or_create_conversation`
returns a conversation whose single message is the system prompt and whose
`active` flag is true, and a record with that message list and flag is
persisted under the id. -/
theorem get_or_create_fresh_creates
    (cid : String) (store : Store) (now : Nat)
    (habsent : findOne store cid = none) :
    (get_or_create_conversation cid store now).1.messages =
      [⟨"system", "You are a useful AI assistant."⟩]
    ∧ (get_or_create_conversation cid store now).1.active = true
    ∧ ∃ rec : Record,
        findOne (get_or_create_conversation cid store now).2 cid = some rec
        ∧ rec.messages = [⟨"system", "You are a useful AI assistant."⟩]
        ∧ rec.active = true := by
  refine ⟨?_, ?_, ⟨⟨cid, [systemMessage], true, now, now⟩, ?_, rfl, rfl⟩⟩
  · simp [get_or_create_conversation, habsent, Conversation.init, systemMessage]
  · simp [get_or_create_conversation, habsent, Conversation.init]
  · simp only [get_or_create_conversation, habsent, Conversation.init]
    exact findOne_append_of_none store _ cid habsent rfl

/-- Witness for `get_or_create_fresh_creates` on the empty store. -/
theorem get_or_create_fresh_creates_witness :
    (get_or_create_conversation "c1" [] 5).1.messages =
      [⟨"system", "You are a useful AI assistant."⟩]
    ∧ (get_or_create_conversation "c1" [] 5).1.active = true
    ∧ ∃ rec : Record,
        findOne (get_or_create_conversation "c1" [] 5).2 "c1" = some rec
        ∧ rec.messages = [⟨"system", "You are a useful AI assistant."⟩]
        ∧ rec.active = true :=
  get_or_create_fresh_creates "c1" [] 5 rfl

/-- Claim C8: two consecutive `get_or_create_conversation` calls for the same
id with no intervening store mutation return element-wise identical message
sequences, in both the fresh case (create then read back) and the existing
case (read twice). -/
theorem get_or_create_twice_same_messages
    (cid : String) (store : Store) (n1 n2 : Nat) :
    ((get_or_create_conversation cid
        (get_or_create_conversation cid store n1).2 n2).1).messages =
      ((get_or_create_conversation cid store n1).1).messages := by
  cases h : findOne store cid with
  | some r => simp [get_or_create_conversation, h]
  | none =>
      have hf : findOne (store ++ [⟨cid, [systemMessage], true, n1, n1⟩]) cid =
          some ⟨cid, [systemMessage], true, n1, n1⟩ :=
        findOne_append_of_none store _ cid h rfl
      simp [get_or_create_conversation, h, hf, Conversation.init]

/-- Claim C9: a chat on an id absent from the store first inserts the fresh
record (system message only, active), and when the completion then fails the
handler returns the upstream error with the store exactly as the creation
left it — the creation write is not rolled back. -/
theorem chat_fresh_record_survives_failed_completion
    (upstream : Upstream) (input : UserInput) (store : Store) (now : Nat)
    (e : String)
    (habsent : findOne store input.conversation_id = none)
    (hfail : upstream [systemMessage, ⟨input.role, input.message⟩] =
      Except.error e) :
    (chat upstream input store now).1 =
      Except.error (ChatError.upstream ("Error with Groq API: " ++ e))
    ∧ (chat upstream input store now).2 =
        (get_or_create_conversation input.conversation_id store now).2
    ∧ ∃ rec : Record,
        findOne (chat upstream input store now).2 input.conversation_id =
          some rec
        ∧ rec.messages = [systemMessage]
        ∧ rec.active = true := by
  have hc : chat upstream input store now =
      (Except.error (ChatError.upstream ("Error with Groq API: " ++ e)),
        store ++ [⟨input.conversation_id, [systemMessage], true, now, now⟩]) := by
    simp [chat, get_or_create_conversation, habsent, Conversation.init,
      query_groq_api, hfail]
  have h2 : (chat upstream input store now).2 =
      store ++ [⟨input.conversation_id, [systemMessage], true, now, now⟩] := by
    rw [hc]
  refine ⟨by rw [hc], ?_, ?_⟩
  · rw [h2]
    simp [get_or_create_conversation, habsent, Conversation.init]
  · refine ⟨⟨input.conversation_id, [systemMessage], true, now, now⟩, ?_, rfl, rfl⟩
    rw [h2]
    exact findOne_append_of_none store _ _ habsent rfl

/-- Witness for `chat_fresh_record_survives_failed_completion` on the empty
store. -/
theorem chat_fresh_record_survives_failed_completion_witness :
    (chat upstreamFail inputHi [] 5).1 =
      Except.error (ChatError.upstream ("Error with Groq API: " ++ "boom"))
    ∧ (chat upstreamFail inputHi [] 5).2 =
        (get_or_create_conversation "c1" [] 5).2
    ∧ ∃ rec : Record,
        findOne (chat upstreamFail inputHi [] 5).2 "c1" = some rec
        ∧ rec.messages = [systemMessage]
        ∧ rec.active = true :=
  chat_fresh_record_survives_failed_completion upstreamFail inputHi [] 5
    "boom" rfl rfl

/-- Claim C10: `save_conversation` rewrites only `messages`, `active` and
`updated_at` — for every record of the store, the `conversation_id` and
`created_at` fields are exactly what they were before the persist call. -/
theorem save_conversation_preserves_id_and_created_at
    (conversation : Conversation) (now : Nat) (store : Store) :
    ((save_conversation conversation now store).map
        (fun r => (r.conversation_id, r.created_at))) =
      store.map (fun r => (r.conversation_id, r.created_at)) := by
  rw [save_conversation]
  induction store with
  | nil => rfl
  | cons r rs ih =>
      cases h : (r.conversation_id == conversation.conversation_id) with
      | true => simp [updateOne, h]
      | false => simp [updateOne, h, ih]
